import Mathlib

/-!
Shallow embedding of `src/app.js` (HighLite Crypto Tracker).

Modelling conventions:
* JS numbers that hold prices and percentages are modelled as rationals `ℚ`.
* The value of a numeric text input is modelled by the result of `parseFloat`
  on it: `none` stands for `NaN` (absent or non-numeric input), `some q` for a
  string parsing to the number `q`.
* The JS idiom `x || d` applied to a number is falsy exactly on `NaN` and `0`,
  which `jsOrZero` / `jsOrInfinity` reproduce; `Infinity` as an upper bound is
  modelled by `⊤ : WithTop ℚ`.
* `Array.prototype.sort` with a numeric comparator is a stable sort ordering
  by the comparator; it is modelled by `List.mergeSort` with the
  corresponding boolean `≤` test.
* DOM state (theme attribute, localStorage, icon css classes, loader/error
  visibility, grid contents) is carried explicitly in record types.
-/

namespace HighLite

/-- Asset record: the fields of a CoinGecko market entry that `app.js` reads. -/
structure Asset where
  image : String
  name : String
  symbol : String
  current_price : ℚ
  price_change_percentage_24h : ℚ
deriving Repr, DecidableEq

/-- Sort state: the three values the `sortOrder` global ranges over
(the source comment on line 10 documents them as 'default', 'asc', 'desc'). -/
inductive SortOrder where
  | default
  | asc
  | desc
deriving Repr, DecidableEq

/-- Embedding of `parseFloat(minPriceInput.value) || 0` (line 57): a JS `||`
falls through to the default on `NaN` and on `0`. -/
def jsOrZero (v : Option ℚ) : ℚ :=
  match v with
  | none => 0
  | some q => if q = 0 then 0 else q

/-- Embedding of `parseFloat(maxPriceInput.value) || Infinity` (line 58): a JS
`||` falls through to `Infinity` on `NaN` and on `0`. -/
def jsOrInfinity (v : Option ℚ) : WithTop ℚ :=
  match v with
  | none => ⊤
  | some q => if q = 0 then ⊤ else (q : WithTop ℚ)

/-- The filter callback `asset.current_price >= min && asset.current_price <= max`
(lines 60-62). -/
def filterPredicate (minB : ℚ) (maxB : WithTop ℚ) (a : Asset) : Bool :=
  decide (minB ≤ a.current_price) && decide ((a.current_price : WithTop ℚ) ≤ maxB)

/-- The ascending comparator `(a, b) => a.current_price - b.current_price`
(line 66), as the boolean order it sorts by. -/
def priceAscLe (a b : Asset) : Bool :=
  decide (a.current_price ≤ b.current_price)

/-- The descending comparator `(a, b) => b.current_price - a.current_price`
(line 68), as the boolean order it sorts by. -/
def priceDescLe (a b : Asset) : Bool :=
  decide (b.current_price ≤ a.current_price)

/-- JS `x.toFixed(2)` as the integer number of hundredths displayed: the
integer `n` minimizing the distance of `n / 100` to `x`, ties resolved to the
larger `n` (the ECMAScript rule), which is `⌊100 x + 1/2⌋`. -/
def toFixed2 (q : ℚ) : ℤ :=
  ⌊q * 100 + 1 / 2⌋

/-- One rendered asset card (lines 110-127): the data `renderAssets` writes
into a card's markup.  The 24h change is shown as `sign` followed by
`changeHundredths` hundredths formatted with two decimal places. -/
structure Card where
  image : String
  name : String
  symbol : String
  price : ℚ
  sign : String
  changeHundredths : ℤ
  colorClass : String
deriving Repr, DecidableEq

/-- The card built for one asset in the `forEach` body (lines 109-129). -/
def renderCard (a : Asset) : Card :=
  let priceChange := a.price_change_percentage_24h
  let colorClass := if 0 ≤ priceChange then "positive" else "negative"
  let sign := if 0 ≤ priceChange then "+" else ""
  { image := a.image
    name := a.name
    symbol := a.symbol
    price := a.current_price
    sign := sign
    changeHundredths := toFixed2 priceChange
    colorClass := colorClass }

/-- The empty-state message of line 105, without its inline styling. -/
def noResultsMessage : String := "No assets found in this price range."

/-- Contents of the `#asset-grid` element after a render. -/
inductive GridContent where
  | message (text : String)
  | cards (cs : List Card)
deriving Repr, DecidableEq

/-- Pure core of `renderAssets` (lines 101-131): the grid contents produced
from a display list.  The function clears the grid first and depends only on
the display list, so its output replaces whatever was in the grid before. -/
def renderAssets (displayAssets : List Asset) : GridContent :=
  if displayAssets.length = 0 then GridContent.message noResultsMessage
  else GridContent.cards (displayAssets.map renderCard)

/-- The page state `app.js` manipulates: the module-level globals (lines 8-10),
the two numeric inputs (as `parseFloat` results), the sort label text, the
visibility of the loader / grid / error banner, the error text, and the grid
contents. -/
structure AppState where
  assets : List Asset
  displayAssets : List Asset
  sortOrder : SortOrder
  minPriceValue : Option ℚ
  maxPriceValue : Option ℚ
  sortLabel : String
  loaderVisible : Bool
  gridVisible : Bool
  errorVisible : Bool
  errorText : String
  grid : GridContent
deriving Repr, DecidableEq

/-- The state update performed by calling `renderAssets()` (lines 101-131). -/
def renderState (s : AppState) : AppState :=
  { s with grid := renderAssets s.displayAssets }

/-- `applyFiltersAndSort` (lines 55-78): filter by price range, then sort the
filtered copy in place for 'asc'/'desc', or re-filter the base list for the
default order; finally render. -/
def applyFiltersAndSort (s : AppState) : AppState :=
  let min := jsOrZero s.minPriceValue
  let max := jsOrInfinity s.maxPriceValue
  let filtered := s.assets.filter (filterPredicate min max)
  let newDisplay :=
    match s.sortOrder with
    | SortOrder.asc => filtered.mergeSort priceAscLe
    | SortOrder.desc => filtered.mergeSort priceDescLe
    | SortOrder.default => s.assets.filter (filterPredicate min max)
  renderState { s with displayAssets := newDisplay }

/-- `cycleSort` (lines 83-96). -/
def cycleSort (s : AppState) : AppState :=
  let s :=
    if s.sortOrder = SortOrder.default then
      { s with sortOrder := SortOrder.desc, sortLabel := "Sort: High to Low" }
    else if s.sortOrder = SortOrder.desc then
      { s with sortOrder := SortOrder.asc, sortLabel := "Sort: Low to High" }
    else
      { s with sortOrder := SortOrder.default, sortLabel := "Sort: Default" }
  applyFiltersAndSort s

/-- `clearFilters` (lines 155-161): emptied inputs parse to `NaN`, hence
`none`. -/
def clearFilters (s : AppState) : AppState :=
  applyFiltersAndSort
    { s with minPriceValue := none, maxPriceValue := none,
             sortOrder := SortOrder.default, sortLabel := "Sort: Default" }

/-- `showLoader` (line 164). -/
def showLoader (s : AppState) : AppState :=
  { s with loaderVisible := true, gridVisible := false }

/-- `hideLoader` (line 165). -/
def hideLoader (s : AppState) : AppState :=
  { s with loaderVisible := false, gridVisible := true }

/-- `showError` (line 166). -/
def showError (msg : String) (s : AppState) : AppState :=
  { s with errorText := msg, errorVisible := true }

/-- `hideError` (line 167). -/
def hideError (s : AppState) : AppState :=
  { s with errorVisible := false }

/-- The generic message of line 46. -/
def fetchErrorMessage : String :=
  "Could not fetch crypto data. Please check your connection or try again later."

/-- The possible outcomes of the single `fetch` of `fetchAssets`: the promise
rejects (network error), the response is not ok (line 37), `response.json()`
rejects (parse error), or a list of assets is obtained. -/
inductive FetchOutcome where
  | networkError
  | httpError (status : Nat) (statusText : String)
  | parseError
  | success (data : List Asset)
deriving Repr, DecidableEq

/-- The state at the moment the request is issued, after `showLoader()` and
`hideError()` (lines 31-32) have run. -/
def fetchAssetsPending (s : AppState) : AppState :=
  hideError (showLoader s)

/-- `fetchAssets` (lines 30-50) as a state transformer indexed by the outcome
of the request: on success the base list is replaced and the pipeline re-runs;
every failure is caught and mapped to the generic error message; the `finally`
block hides the loader in all cases. -/
def fetchAssets (s : AppState) (o : FetchOutcome) : AppState :=
  let s := fetchAssetsPending s
  let s :=
    match o with
    | FetchOutcome.success data => applyFiltersAndSort { s with assets := data }
    | _ => showError fetchErrorMessage s
  hideLoader s

/-- Theme-related page state: the body `data-theme` attribute, the persisted
`highlite-theme` localStorage entry, and whether each icon carries the
`hidden` class. -/
structure ThemeState where
  dataTheme : Option String
  storedTheme : Option String
  sunHidden : Bool
  moonHidden : Bool
deriving Repr, DecidableEq

/-- `toggleTheme` (lines 136-150). -/
def toggleTheme (s : ThemeState) : ThemeState :=
  let currentTheme := s.dataTheme
  let newTheme := if currentTheme = some "light" then "dark" else "light"
  let s := { s with dataTheme := some newTheme, storedTheme := some newTheme }
  if newTheme = "dark" then
    { s with sunHidden := true, moonHidden := false }
  else
    { s with sunHidden := false, moonHidden := true }

/-- The theme part of `init` (lines 177-187): apply dark mode once iff the
persisted value is "dark". -/
def initTheme (s : ThemeState) : ThemeState :=
  if s.storedTheme = some "dark" then
    { s with dataTheme := some "dark", sunHidden := true, moonHidden := false }
  else s

/-! Helper definitions used to state and prove properties. -/

/-- The display list as a function of the only four inputs it depends on. -/
def displayList (assets : List Asset) (minV maxV : Option ℚ) : SortOrder → List Asset
  | SortOrder.asc =>
      (assets.filter (filterPredicate (jsOrZero minV) (jsOrInfinity maxV))).mergeSort priceAscLe
  | SortOrder.desc =>
      (assets.filter (filterPredicate (jsOrZero minV) (jsOrInfinity maxV))).mergeSort priceDescLe
  | SortOrder.default =>
      assets.filter (filterPredicate (jsOrZero minV) (jsOrInfinity maxV))

/-- The successor of a sort mode in the rotation `cycleSort` implements. -/
def nextSort : SortOrder → SortOrder
  | SortOrder.default => SortOrder.desc
  | SortOrder.desc => SortOrder.asc
  | SortOrder.asc => SortOrder.default

/-- The button label belonging to each sort mode. -/
def labelOf : SortOrder → String
  | SortOrder.default => "Sort: Default"
  | SortOrder.desc => "Sort: High to Low"
  | SortOrder.asc => "Sort: Low to High"

/-- Modelled from the spec: the upper bound prescribed by the claim that
"for every numeric maximum input (including the numeric value 0) the parsed
numeric value is applied as the upper bound", with only absent/non-numeric
input unbounded.  Used solely to compare the claimed semantics with the
code, which the counterexample shows to differ at a parsed value of 0. -/
def claimedMaxBound (v : Option ℚ) : WithTop ℚ :=
  match v with
  | none => ⊤
  | some q => (q : WithTop ℚ)

/-! Concrete fixtures used by counterexamples and witnesses. -/

/-- Fixture asset with price 5 and positive 24h change. -/
def assetA : Asset :=
  { image := "img-a", name := "Alpha", symbol := "ALP",
    current_price := 5, price_change_percentage_24h := 1 }

/-- Fixture asset with price 3 and negative 24h change. -/
def assetB : Asset :=
  { image := "img-b", name := "Beta", symbol := "BET",
    current_price := 3, price_change_percentage_24h := -2 }

/-- Fixture asset sharing price 5 with `assetA`, zero 24h change. -/
def assetC : Asset :=
  { image := "img-c", name := "Gamma", symbol := "GAM",
    current_price := 5, price_change_percentage_24h := 0 }

/-- Fixture asset with a negative price. -/
def assetNeg : Asset :=
  { image := "img-n", name := "Neg", symbol := "NEG",
    current_price := -1, price_change_percentage_24h := 0 }

/-- An arbitrary initial grid content. -/
def emptyGrid : GridContent := GridContent.cards []

/-- Fixture page state: three fetched assets, no bounds, default sort. -/
def baseState : AppState :=
  { assets := [assetA, assetB, assetC], displayAssets := [],
    sortOrder := SortOrder.default, minPriceValue := none, maxPriceValue := none,
    sortLabel := "Sort: Default", loaderVisible := false, gridVisible := true,
    errorVisible := false, errorText := "", grid := emptyGrid }

/-- Fixture state whose minimum input parses to 4. -/
def minFourState : AppState := { baseState with minPriceValue := some 4 }

/-- Fixture state whose maximum input parses to the numeric value 0. -/
def maxZeroState : AppState := { baseState with maxPriceValue := some 0 }

/-- Fixture state in ascending sort mode. -/
def ascState : AppState := { baseState with sortOrder := SortOrder.asc }

/-- Fixture state holding one negative-priced asset, ascending mode. -/
def negAscState : AppState :=
  { baseState with assets := [assetNeg], sortOrder := SortOrder.asc }

/-- Fixture state holding one negative-priced asset, default mode. -/
def negDefaultState : AppState := { baseState with assets := [assetNeg] }

/-- Fixture state whose display list is already the engine's output. -/
def readyState : AppState := { baseState with displayAssets := [assetA, assetB, assetC] }

/-- The page's theme state before any toggle when nothing was persisted: no
`data-theme` attribute, no stored value, sun icon shown, moon icon hidden. -/
def freshTheme : ThemeState :=
  { dataTheme := none, storedTheme := none, sunHidden := false, moonHidden := true }

/-- The consistent light-mode theme state. -/
def lightTheme : ThemeState :=
  { dataTheme := some "light", storedTheme := some "light",
    sunHidden := false, moonHidden := true }

/-- The consistent dark-mode theme state. -/
def darkTheme : ThemeState :=
  { dataTheme := some "dark", storedTheme := some "dark",
    sunHidden := true, moonHidden := false }

/-! Helper lemmas. -/

lemma filterPredicate_eq_true {minB : ℚ} {maxB : WithTop ℚ} {a : Asset} :
    filterPredicate minB maxB a = true
      ↔ minB ≤ a.current_price ∧ (a.current_price : WithTop ℚ) ≤ maxB := by
  simp [filterPredicate]

lemma applyFiltersAndSort_displayAssets (s : AppState) :
    (applyFiltersAndSort s).displayAssets
      = displayList s.assets s.minPriceValue s.maxPriceValue s.sortOrder := by
  cases h : s.sortOrder <;>
    simp [applyFiltersAndSort, renderState, displayList, h]

lemma applyFiltersAndSort_assets (s : AppState) :
    (applyFiltersAndSort s).assets = s.assets := rfl

lemma applyFiltersAndSort_sortOrder (s : AppState) :
    (applyFiltersAndSort s).sortOrder = s.sortOrder := rfl

lemma applyFiltersAndSort_sortLabel (s : AppState) :
    (applyFiltersAndSort s).sortLabel = s.sortLabel := rfl

lemma applyFiltersAndSort_minPriceValue (s : AppState) :
    (applyFiltersAndSort s).minPriceValue = s.minPriceValue := rfl

lemma applyFiltersAndSort_maxPriceValue (s : AppState) :
    (applyFiltersAndSort s).maxPriceValue = s.maxPriceValue := rfl

lemma cycleSort_eq (s : AppState) :
    cycleSort s
      = applyFiltersAndSort
          { s with sortOrder := nextSort s.sortOrder,
                   sortLabel := labelOf (nextSort s.sortOrder) } := by
  cases h : s.sortOrder <;> simp [cycleSort, nextSort, labelOf, h]

lemma cycleSort_sortOrder (s : AppState) :
    (cycleSort s).sortOrder = nextSort s.sortOrder := by
  rw [cycleSort_eq]; rfl

lemma cycleSort_sortLabel (s : AppState) :
    (cycleSort s).sortLabel = labelOf (nextSort s.sortOrder) := by
  rw [cycleSort_eq]; rfl

lemma cycleSort_assets (s : AppState) : (cycleSort s).assets = s.assets := by
  rw [cycleSort_eq]; rfl

lemma cycleSort_minPriceValue (s : AppState) :
    (cycleSort s).minPriceValue = s.minPriceValue := by
  rw [cycleSort_eq]; rfl

lemma cycleSort_maxPriceValue (s : AppState) :
    (cycleSort s).maxPriceValue = s.maxPriceValue := by
  rw [cycleSort_eq]; rfl

lemma cycleSort_displayAssets (s : AppState) :
    (cycleSort s).displayAssets
      = displayList s.assets s.minPriceValue s.maxPriceValue (nextSort s.sortOrder) := by
  rw [cycleSort_eq, applyFiltersAndSort_displayAssets]

lemma nextSort_nextSort_nextSort (o : SortOrder) :
    nextSort (nextSort (nextSort o)) = o := by
  cases o <;> rfl

lemma mem_displayList {assets : List Asset} {minV maxV : Option ℚ}
    {o : SortOrder} {a : Asset} :
    a ∈ displayList assets minV maxV o
      ↔ a ∈ assets
        ∧ filterPredicate (jsOrZero minV) (jsOrInfinity maxV) a = true := by
  cases o <;> simp [displayList, List.mem_mergeSort, List.mem_filter]

lemma jsOrZero_none : jsOrZero none = 0 := rfl

lemma jsOrInfinity_none : jsOrInfinity none = ⊤ := rfl

lemma jsOrZero_eq_zero_iff (v : Option ℚ) :
    jsOrZero v = 0 ↔ v = none ∨ v = some 0 := by
  cases v with
  | none => simp [jsOrZero]
  | some q =>
      by_cases hq : q = 0 <;> simp [jsOrZero, hq]

lemma jsOrInfinity_eq_top_iff (v : Option ℚ) :
    jsOrInfinity v = ⊤ ↔ v = none ∨ v = some 0 := by
  cases v with
  | none => simp [jsOrInfinity]
  | some q =>
      by_cases hq : q = 0 <;> simp [jsOrInfinity, hq]

lemma priceAscLe_trans :
    ∀ a b c : Asset, priceAscLe a b = true → priceAscLe b c = true →
      priceAscLe a c = true := by
  intro a b c h1 h2
  simp only [priceAscLe, decide_eq_true_eq] at *
  exact le_trans h1 h2

lemma priceAscLe_total :
    ∀ a b : Asset, (priceAscLe a b || priceAscLe b a) = true := by
  intro a b
  simp only [priceAscLe, Bool.or_eq_true, decide_eq_true_eq]
  exact le_total _ _

lemma priceDescLe_trans :
    ∀ a b c : Asset, priceDescLe a b = true → priceDescLe b c = true →
      priceDescLe a c = true := by
  intro a b c h1 h2
  simp only [priceDescLe, decide_eq_true_eq] at *
  exact le_trans h2 h1

lemma priceDescLe_total :
    ∀ a b : Asset, (priceDescLe a b || priceDescLe b a) = true := by
  intro a b
  simp only [priceDescLe, Bool.or_eq_true, decide_eq_true_eq]
  exact le_total _ _

lemma filter_eq_self_of_nonneg {assets : List Asset}
    (hpos : ∀ a ∈ assets, 0 ≤ a.current_price) :
    assets.filter (filterPredicate (jsOrZero none) (jsOrInfinity none)) = assets := by
  apply List.filter_eq_self.mpr
  intro a ha
  rw [filterPredicate_eq_true]
  exact ⟨hpos a ha, le_top⟩

/-! Claim theorems. -/

/-- C1: under default sort mode, the display list produced by
`applyFiltersAndSort` is exactly the base list filtered by the active price
range — the surviving elements keep their relative base-list order (that is
what `List.filter` computes) — and the filter keeps an asset iff
`min ≤ current_price ≤ max` for the parsed bounds. -/
theorem c1_default_display_eq_filter (s : AppState)
    (h : s.sortOrder = SortOrder.default) :
    (applyFiltersAndSort s).displayAssets
      = s.assets.filter
          (filterPredicate (jsOrZero s.minPriceValue) (jsOrInfinity s.maxPriceValue))
    ∧ ∀ a : Asset,
        filterPredicate (jsOrZero s.minPriceValue) (jsOrInfinity s.maxPriceValue) a = true
          ↔ jsOrZero s.minPriceValue ≤ a.current_price
            ∧ (a.current_price : WithTop ℚ) ≤ jsOrInfinity s.maxPriceValue := by
  refine ⟨?_, fun a => filterPredicate_eq_true⟩
  rw [applyFiltersAndSort_displayAssets, h]
  rfl

/-- C1 witness: on the fixture state with minimum bound 4 the display list is
the in-order sublist of base assets priced at least 4. -/
theorem c1_default_display_eq_filter_app :
    (applyFiltersAndSort minFourState).displayAssets = [assetA, assetC] :=
  (c1_default_display_eq_filter minFourState rfl).1.trans (by decide)

/-- C2 counterexample: the claim prescribes that a maximum input parsing to
the numeric value 0 is applied as the upper bound (`claimedMaxBound`), but on
a base list holding an asset priced 5 with maximum input 0 the code keeps the
asset while the claimed predicate would reject every asset. -/
theorem c2_counterexample :
    (applyFiltersAndSort maxZeroState).displayAssets
      ≠ maxZeroState.assets.filter
          (filterPredicate (jsOrZero maxZeroState.minPriceValue)
            (claimedMaxBound maxZeroState.maxPriceValue)) := by
  decide

/-- C2 (amended): an asset is kept iff `min ≤ current_price ≤ max`, where the
minimum bound is zero when the minimum input is absent, non-numeric, or
parses to 0, and the maximum bound is unbounded (`⊤`) exactly when the
maximum input is absent, non-numeric, or parses to the numeric value 0; every
nonzero numeric input is applied as parsed. -/
theorem c2_bounds (s : AppState) (a : Asset) :
    (a ∈ (applyFiltersAndSort s).displayAssets
      ↔ a ∈ s.assets
        ∧ jsOrZero s.minPriceValue ≤ a.current_price
        ∧ (a.current_price : WithTop ℚ) ≤ jsOrInfinity s.maxPriceValue)
    ∧ (∀ v : Option ℚ, jsOrZero v = 0 ↔ v = none ∨ v = some 0)
    ∧ (∀ v : Option ℚ, jsOrInfinity v = ⊤ ↔ v = none ∨ v = some 0)
    ∧ (∀ q : ℚ, q ≠ 0 → jsOrZero (some q) = q ∧ jsOrInfinity (some q) = (q : WithTop ℚ)) := by
  refine ⟨?_, jsOrZero_eq_zero_iff, jsOrInfinity_eq_top_iff, ?_⟩
  · rw [applyFiltersAndSort_displayAssets, mem_displayList, filterPredicate_eq_true]
  · intro q hq
    exact ⟨by simp [jsOrZero, hq], by simp [jsOrInfinity, hq]⟩

/-- C2 witness: with maximum input parsing to 0 the asset priced 3 is kept,
because the code treats that bound as unbounded. -/
theorem c2_bounds_app :
    assetB ∈ (applyFiltersAndSort maxZeroState).displayAssets :=
  (c2_bounds maxZeroState assetB).1.mpr (by decide)

/-- C3 counterexample: from the initial page state (no theme attribute, no
persisted value, sun icon shown) two calls of `toggleTheme` do not restore
the persisted storage value: it goes from absent to "dark". -/
theorem c3_counterexample :
    (toggleTheme (toggleTheme freshTheme)).storedTheme ≠ freshTheme.storedTheme := by
  decide

/-- C3 (amended): for every page state in which the theme attribute has
actually been applied — it is "light" or "dark", the persisted value matches,
and the icon visibility matches (sun shown in light, moon shown in dark) —
calling `toggleTheme` twice restores the entire theme state.  The initial
state, whose attribute is absent, is excluded: there the first toggle sets
"light", not "dark". -/
theorem c3_double_toggle_id (s : ThemeState)
    (h : s = lightTheme ∨ s = darkTheme) :
    toggleTheme (toggleTheme s) = s := by
  rcases h with h | h <;> subst h <;> decide

/-- C3 witness: double toggle restores the consistent light state. -/
theorem c3_double_toggle_id_app :
    toggleTheme (toggleTheme lightTheme) = lightTheme :=
  c3_double_toggle_id lightTheme (Or.inl rfl)

/-- C4 counterexample: with both bounds absent, an asset priced below zero is
dropped by the filter (the absent minimum becomes the numeric bound 0), so on
the base list `[assetNeg]` in ascending mode the display list is not a
permutation of the base list. -/
theorem c4_counterexample :
    ¬ (applyFiltersAndSort negAscState).displayAssets.Perm negAscState.assets := by
  have hd : (applyFiltersAndSort negAscState).displayAssets = [] := by
    rw [applyFiltersAndSort_displayAssets]
    have h1 : negAscState.sortOrder = SortOrder.asc := rfl
    have h2 : negAscState.assets.filter
        (filterPredicate (jsOrZero negAscState.minPriceValue)
          (jsOrInfinity negAscState.maxPriceValue)) = [] := by decide
    rw [h1]
    unfold displayList
    rw [h2, List.mergeSort_nil]
  rw [hd]
  intro h
  exact absurd h.length_eq (by decide)

/-- C4 (amended): for every base list all of whose assets have non-negative
current price (the shape the data model guarantees), running the engine with
both bounds absent in ascending (resp. descending) mode yields a permutation
of the base list whose prices are non-decreasing (resp. non-increasing), and
the sort is stable: two assets with equal price that appear as a pair in the
base list (= the filtered subset here) appear as a pair in the same order in
the display list. -/
theorem c4_sort_perm_sorted_stable (s : AppState)
    (hmin : s.minPriceValue = none) (hmax : s.maxPriceValue = none)
    (hpos : ∀ a ∈ s.assets, 0 ≤ a.current_price) :
    (s.sortOrder = SortOrder.asc →
      (applyFiltersAndSort s).displayAssets.Perm s.assets
      ∧ (applyFiltersAndSort s).displayAssets.Pairwise
          (fun a b => a.current_price ≤ b.current_price)
      ∧ ∀ a b : Asset, [a, b].Sublist s.assets →
          a.current_price = b.current_price →
          [a, b].Sublist (applyFiltersAndSort s).displayAssets)
    ∧ (s.sortOrder = SortOrder.desc →
      (applyFiltersAndSort s).displayAssets.Perm s.assets
      ∧ (applyFiltersAndSort s).displayAssets.Pairwise
          (fun a b => b.current_price ≤ a.current_price)
      ∧ ∀ a b : Asset, [a, b].Sublist s.assets →
          a.current_price = b.current_price →
          [a, b].Sublist (applyFiltersAndSort s).displayAssets) := by
  have hfil :
      s.assets.filter
          (filterPredicate (jsOrZero s.minPriceValue) (jsOrInfinity s.maxPriceValue))
        = s.assets := by
    rw [hmin, hmax]
    exact filter_eq_self_of_nonneg hpos
  constructor
  · intro ho
    rw [applyFiltersAndSort_displayAssets, ho]
    unfold displayList
    rw [hfil]
    refine ⟨List.mergeSort_perm s.assets priceAscLe, ?_, ?_⟩
    · have hs := List.sorted_mergeSort priceAscLe_trans priceAscLe_total s.assets
      exact hs.imp (fun h => by
        simpa only [priceAscLe, decide_eq_true_eq] using h)
    · intro a b hsub heq
      refine List.sublist_mergeSort priceAscLe_trans priceAscLe_total ?_ hsub
      simp [priceAscLe, heq.le]
  · intro ho
    rw [applyFiltersAndSort_displayAssets, ho]
    unfold displayList
    rw [hfil]
    refine ⟨List.mergeSort_perm s.assets priceDescLe, ?_, ?_⟩
    · have hs := List.sorted_mergeSort priceDescLe_trans priceDescLe_total s.assets
      exact hs.imp (fun h => by
        simpa only [priceDescLe, decide_eq_true_eq] using h)
    · intro a b hsub heq
      refine List.sublist_mergeSort priceDescLe_trans priceDescLe_total ?_ hsub
      simp [priceDescLe, heq.ge]

/-- C4 witness: on the non-negative fixture base list in ascending mode, the
display list is a permutation of the base list. -/
theorem c4_sort_perm_sorted_stable_app :
    (applyFiltersAndSort ascState).displayAssets.Perm ascState.assets :=
  ((c4_sort_perm_sorted_stable ascState rfl rfl (by decide)).1 rfl).1

/-- C5: `cycleSort` advances the mode through the rotation default →
descending → ascending → default with the matching labels, and on any state
whose label and display list agree with its mode (as in every state the app
reaches), three calls restore the mode, the label, and the display list. -/
theorem c5_cycle_rotation (s : AppState)
    (hlabel : s.sortLabel = labelOf s.sortOrder)
    (hdisp : s.displayAssets = (applyFiltersAndSort s).displayAssets) :
    (s.sortOrder = SortOrder.default →
      (cycleSort s).sortOrder = SortOrder.desc
      ∧ (cycleSort s).sortLabel = "Sort: High to Low")
    ∧ (s.sortOrder = SortOrder.desc →
      (cycleSort s).sortOrder = SortOrder.asc
      ∧ (cycleSort s).sortLabel = "Sort: Low to High")
    ∧ (s.sortOrder = SortOrder.asc →
      (cycleSort s).sortOrder = SortOrder.default
      ∧ (cycleSort s).sortLabel = "Sort: Default")
    ∧ (cycleSort (cycleSort (cycleSort s))).sortOrder = s.sortOrder
    ∧ (cycleSort (cycleSort (cycleSort s))).sortLabel = s.sortLabel
    ∧ (cycleSort (cycleSort (cycleSort s))).displayAssets = s.displayAssets := by
  refine ⟨?_, ?_, ?_, ?_, ?_, ?_⟩
  · intro h
    rw [cycleSort_sortOrder, cycleSort_sortLabel, h]
    exact ⟨rfl, rfl⟩
  · intro h
    rw [cycleSort_sortOrder, cycleSort_sortLabel, h]
    exact ⟨rfl, rfl⟩
  · intro h
    rw [cycleSort_sortOrder, cycleSort_sortLabel, h]
    exact ⟨rfl, rfl⟩
  · rw [cycleSort_sortOrder, cycleSort_sortOrder, cycleSort_sortOrder,
      nextSort_nextSort_nextSort]
  · rw [cycleSort_sortLabel, cycleSort_sortOrder, cycleSort_sortOrder,
      nextSort_nextSort_nextSort, hlabel]
  · rw [cycleSort_displayAssets, cycleSort_assets, cycleSort_assets,
      cycleSort_minPriceValue, cycleSort_minPriceValue,
      cycleSort_maxPriceValue, cycleSort_maxPriceValue,
      cycleSort_sortOrder, cycleSort_sortOrder,
      nextSort_nextSort_nextSort, hdisp, applyFiltersAndSort_displayAssets]

/-- C5 witness: three cycles from the consistent default fixture state
restore the default mode. -/
theorem c5_cycle_rotation_app :
    (cycleSort (cycleSort (cycleSort readyState))).sortOrder = readyState.sortOrder :=
  (c5_cycle_rotation readyState rfl (by decide)).2.2.2.1

/-- C6: for every failing outcome of the fetch (network error, non-ok HTTP
status, or a body that fails to parse), the base list is exactly what it was
before the call, the generic error message is shown, and the loading
indicator is visible at the moment the request is pending and hidden once the
call completes — also on success. -/
theorem c6_fetch_failure (s : AppState) (o : FetchOutcome)
    (h : ∀ d : List Asset, o ≠ FetchOutcome.success d) :
    (fetchAssets s o).assets = s.assets
    ∧ (fetchAssets s o).errorVisible = true
    ∧ (fetchAssets s o).errorText = fetchErrorMessage
    ∧ (fetchAssetsPending s).loaderVisible = true
    ∧ (fetchAssets s o).loaderVisible = false
    ∧ (∀ d : List Asset, (fetchAssets s (FetchOutcome.success d)).loaderVisible = false) := by
  cases o with
  | success d => exact absurd rfl (h d)
  | networkError => exact ⟨rfl, rfl, rfl, rfl, rfl, fun d => rfl⟩
  | httpError status statusText => exact ⟨rfl, rfl, rfl, rfl, rfl, fun d => rfl⟩
  | parseError => exact ⟨rfl, rfl, rfl, rfl, rfl, fun d => rfl⟩

/-- C6 witness: a network error leaves the error banner showing the generic
message. -/
theorem c6_fetch_failure_app :
    (fetchAssets baseState FetchOutcome.networkError).errorText = fetchErrorMessage :=
  (c6_fetch_failure baseState FetchOutcome.networkError
    (fun d h => FetchOutcome.noConfusion h)).2.2.1

/-- C7: an empty display list renders exactly the no-results message and no
cards; a non-empty one renders one card per asset in display-list order; the
24h change carries a leading "+" exactly when it is ≥ 0, the `positive` class
exactly when it is ≥ 0 and `negative` otherwise, and is displayed as an
integer number of hundredths within half a unit in the last (second) decimal
place of the true value; and a render writes the grid as a function of the
display list alone, replacing any previous contents. -/
theorem c7_render_cards (ds : List Asset) (a : Asset) :
    (ds = [] → renderAssets ds = GridContent.message noResultsMessage)
    ∧ (ds ≠ [] → renderAssets ds = GridContent.cards (ds.map renderCard))
    ∧ ((renderCard a).sign = "+" ↔ 0 ≤ a.price_change_percentage_24h)
    ∧ ((renderCard a).sign = "" ↔ a.price_change_percentage_24h < 0)
    ∧ ((renderCard a).colorClass = "positive" ↔ 0 ≤ a.price_change_percentage_24h)
    ∧ ((renderCard a).colorClass = "negative" ↔ a.price_change_percentage_24h < 0)
    ∧ |((renderCard a).changeHundredths : ℚ) / 100 - a.price_change_percentage_24h|
        ≤ 1 / 200
    ∧ (∀ st : AppState, (renderState st).grid = renderAssets st.displayAssets) := by
  refine ⟨?_, ?_, ?_, ?_, ?_, ?_, ?_, fun st => rfl⟩
  · intro h
    subst h
    rfl
  · intro h
    have hl : ds.length ≠ 0 := by simpa using h
    simp [renderAssets, hl]
  · by_cases hc : 0 ≤ a.price_change_percentage_24h <;>
      simp [renderCard, hc, not_lt, not_le.mp]
  · by_cases hc : 0 ≤ a.price_change_percentage_24h
    · simp [renderCard, hc, not_lt]
    · simp [renderCard, hc]
      exact not_le.mp hc
  · by_cases hc : 0 ≤ a.price_change_percentage_24h <;>
      simp [renderCard, hc]
  · by_cases hc : 0 ≤ a.price_change_percentage_24h
    · simp [renderCard, hc, not_lt]
    · simp [renderCard, hc]
      exact not_le.mp hc
  · have h1 := Int.floor_le (a.price_change_percentage_24h * 100 + 1 / 2)
    have h2 := Int.lt_floor_add_one (a.price_change_percentage_24h * 100 + 1 / 2)
    have hch : (renderCard a).changeHundredths
        = ⌊a.price_change_percentage_24h * 100 + 1 / 2⌋ := rfl
    rw [hch, abs_le]
    constructor <;> linarith

/-- C7 witness: the empty display list renders the no-results message. -/
theorem c7_render_cards_app :
    renderAssets [] = GridContent.message noResultsMessage :=
  (c7_render_cards [] assetA).1 rfl

/-- C8: the filter/sort engine, the sort cycler, the filter clearer, and the
renderer never change the base list; `fetchAssets` replaces it wholesale with
the fetched data on success and leaves it untouched otherwise; and every
element of the display list produced by the engine is an element of the base
list satisfying the active price-range predicate. -/
theorem c8_state_invariants (s : AppState) (o : FetchOutcome) :
    (applyFiltersAndSort s).assets = s.assets
    ∧ (cycleSort s).assets = s.assets
    ∧ (clearFilters s).assets = s.assets
    ∧ (renderState s).assets = s.assets
    ∧ (fetchAssets s o).assets
        = (match o with
           | FetchOutcome.success d => d
           | _ => s.assets)
    ∧ ∀ a ∈ (applyFiltersAndSort s).displayAssets,
        a ∈ s.assets
        ∧ jsOrZero s.minPriceValue ≤ a.current_price
        ∧ (a.current_price : WithTop ℚ) ≤ jsOrInfinity s.maxPriceValue := by
  refine ⟨rfl, cycleSort_assets s, rfl, rfl, ?_, ?_⟩
  · cases o <;> rfl
  · intro a ha
    rw [applyFiltersAndSort_displayAssets, mem_displayList,
      filterPredicate_eq_true] at ha
    exact ⟨ha.1, ha.2.1, ha.2.2⟩

/-- C8 witness: a fixture asset found in the display list is in the base
list. -/
theorem c8_state_invariants_app : assetB ∈ baseState.assets :=
  ((c8_state_invariants baseState FetchOutcome.networkError).2.2.2.2.2
    assetB (by decide)).1

/-- C9: when the body's theme attribute holds neither "light" nor "dark" —
in particular on a fresh page where `init` applied nothing — `toggleTheme`
switches to light, not dark: attribute and persisted value become "light",
the sun icon is shown, and the moon icon is hidden. -/
theorem c9_toggle_unset_gives_light (s : ThemeState)
    (h1 : s.dataTheme ≠ some "light") (h2 : s.dataTheme ≠ some "dark") :
    (toggleTheme s).dataTheme = some "light"
    ∧ (toggleTheme s).storedTheme = some "light"
    ∧ (toggleTheme s).sunHidden = false
    ∧ (toggleTheme s).moonHidden = true := by
  simp [toggleTheme, h1]

/-- C9 witness: toggling from the fresh state applies the light theme. -/
theorem c9_toggle_unset_gives_light_app :
    (toggleTheme freshTheme).dataTheme = some "light" :=
  (c9_toggle_unset_gives_light freshTheme (by decide) (by decide)).1

/-- C10: even with both bound inputs absent, an asset with strictly negative
current price never appears in the display list, because the absent minimum
bound is realized as the numeric bound 0. -/
theorem c10_negative_price_excluded (s : AppState) (a : Asset)
    (hmin : s.minPriceValue = none) (hmax : s.maxPriceValue = none)
    (hneg : a.current_price < 0) :
    a ∉ (applyFiltersAndSort s).displayAssets := by
  intro hmem
  rw [applyFiltersAndSort_displayAssets, mem_displayList,
    filterPredicate_eq_true, hmin] at hmem
  rw [jsOrZero_none] at hmem
  exact absurd hmem.2.1 (not_le.mpr hneg)

/-- C10 witness: the negative-priced fixture asset is excluded although no
bound is set. -/
theorem c10_negative_price_excluded_app :
    assetNeg ∉ (applyFiltersAndSort negDefaultState).displayAssets :=
  c10_negative_price_excluded negDefaultState assetNeg rfl rfl (by decide)

end HighLite
